import Mathlib

/-!
Verification of the job lifecycle and progress-tracking core of the
suno-support server (src/server/main.py and src/server/yue_service.py).

The Python code is shallowly embedded: pure string manipulation becomes
Lean functions on `String`/`List Char`, the mutable job dictionaries become
record types, and each background task runner becomes a generator of an
explicit event trace (status writes, progress writes, log appends, ...)
folded over the job record.  Exceptions become `Except`/`Option` values.
-/

namespace SunoSupport

/-! ### Python string primitives

Models of the Python `str` operations used by the job core.  All the
strings handled by the job core are ASCII, and the models below agree with
CPython on ASCII input. -/

/-- Python `str.strip`/`\s` whitespace set (ASCII part). -/
def pyIsSpace (c : Char) : Bool :=
  c = ' ' || c = '\t' || c = '\n' || c = '\r' || c = '\x0b' || c = '\x0c'

/-- Boolean infix test on lists: `needle` occurs contiguously in `hay`. -/
def listInfixOf (needle : List Char) : List Char → Bool
  | [] => needle.isEmpty
  | c :: rest => needle.isPrefixOf (c :: rest) || listInfixOf needle rest

/-- Python `needle in hay` substring test. -/
def pyContains (needle hay : String) : Bool :=
  listInfixOf needle.data hay.data

deriving instance DecidableEq for Except

/-- Python `s.startswith(pre)`. -/
def pyStartswith (s pre : String) : Bool :=
  pre.data.isPrefixOf s.data

/-- Python `s.strip()`. -/
def pyStrip (s : String) : String :=
  ⟨((s.data.dropWhile pyIsSpace).reverse.dropWhile pyIsSpace).reverse⟩

/-- Python `s.rstrip()`. -/
def pyRstrip (s : String) : String :=
  ⟨(s.data.reverse.dropWhile pyIsSpace).reverse⟩

/-- ASCII lowercasing of one character. -/
def pyLowerChar (c : Char) : Char :=
  if 'A' ≤ c ∧ c ≤ 'Z' then Char.ofNat (c.toNat + 32) else c

/-- Python `s.lower()` (ASCII). -/
def pyLower (s : String) : String := ⟨s.data.map pyLowerChar⟩

/-- ASCII uppercasing of one character. -/
def pyUpperChar (c : Char) : Char :=
  if 'a' ≤ c ∧ c ≤ 'z' then Char.ofNat (c.toNat - 32) else c

/-- Python `s.upper()` (ASCII). -/
def pyUpper (s : String) : String := ⟨s.data.map pyUpperChar⟩

/-- Python `c.isalnum()` (ASCII). -/
def pyIsAlnum (c : Char) : Bool := c.isAlphanum

/-- Python `int` of a non-empty string of decimal digits. -/
def digitsToNat (ds : List Char) : Nat :=
  ds.foldl (fun n c => 10 * n + (c.toNat - 48)) 0

/-! ### Progress-line parsing (yue_service.py lines 200-222)

The regular expressions used by `_run_yue_process` are
`re.search(r'(\d+)/(\d+)\s*\[', line)` ("token match") and
`re.search(r'(\d+)/(\d+)', line)` ("seg match").  Both are implemented
here as leftmost maximal-munch scanners, which coincides with the regex
semantics for these patterns (each `\d+` is followed by a character that
is not a digit, so greedy matching never needs to backtrack). -/

/-- Try to match `(\d+)/(\d+)\s*\[` starting exactly at the head of `cs`. -/
def tokenAt (cs : List Char) : Option (Nat × Nat) :=
  let d1 := cs.takeWhile Char.isDigit
  let r1 := cs.dropWhile Char.isDigit
  if d1.isEmpty then none else
  match r1 with
  | '/' :: r2 =>
    let d2 := r2.takeWhile Char.isDigit
    let r3 := r2.dropWhile Char.isDigit
    if d2.isEmpty then none else
    match r3.dropWhile pyIsSpace with
    | '[' :: _ => some (digitsToNat d1, digitsToNat d2)
    | _ => none
  | _ => none

/-- `re.search(r'(\d+)/(\d+)\s*\[', line)`: leftmost match anywhere. -/
def findToken : List Char → Option (Nat × Nat)
  | [] => none
  | c :: rest =>
    match tokenAt (c :: rest) with
    | some r => some r
    | none => findToken rest

/-- Try to match `(\d+)/(\d+)` starting exactly at the head of `cs`. -/
def fracAt (cs : List Char) : Option (Nat × Nat) :=
  let d1 := cs.takeWhile Char.isDigit
  let r1 := cs.dropWhile Char.isDigit
  if d1.isEmpty then none else
  match r1 with
  | '/' :: r2 =>
    let d2 := r2.takeWhile Char.isDigit
    if d2.isEmpty then none else some (digitsToNat d1, digitsToNat d2)
  | _ => none

/-- `re.search(r'(\d+)/(\d+)', line)`: leftmost match anywhere. -/
def findFrac : List Char → Option (Nat × Nat)
  | [] => none
  | c :: rest =>
    match fracAt (c :: rest) with
    | some r => some r
    | none => findFrac rest

/-- The stage-2 heuristic of yue_service.py line 207. -/
def stage2Cond (line : String) : Bool :=
  pyContains "50%|##### | 1/2" line ||
  pyContains "100%|##########| 2/2" line ||
  pyContains "/2 [" line

/-- One progress-parsing step of `_run_yue_process` (yue_service.py lines
200-222).  `Except.error m` models a raised exception with message `m`
(Python raises `ZeroDivisionError("division by zero")` when the captured
total is `0`); `Except.ok none` means the line assigns no progress value;
`Except.ok (some p)` means `job["progress"]` is assigned `p`.  None of the
assigned values depend on the previous progress.  Python computes
`int((current/total)*40)` with float division; it is modelled as the exact
floor `current * 40 / total`, which agrees with CPython for the magnitudes
exercised by the theorems below. -/
def yueProgressUpdate (line : String) : Except String (Option Nat) :=
  match findToken line.data with
  | some (current, total) =>
    if stage2Cond line then
      match findFrac line.data with
      | some (cSeg, tSeg) =>
        if tSeg = 0 then .error "division by zero"
        else .ok (some (min (50 + cSeg * 40 / tSeg) 90))
      | none => .ok none
    else
      if total = 0 then .error "division by zero"
      else .ok (some (min (10 + current * 40 / total) 50))
  | none =>
    if pyContains "Starting stage 1" line then .ok (some 10)
    else if pyContains "Starting stage 2" line then .ok (some 50)
    else if pyContains "postprocessing" (pyLower line) || pyContains "vocoder" (pyLower line)
      then .ok (some 90)
    else .ok none

example : yueProgressUpdate "Starting stage 1" = .ok (some 10) := by decide
example : yueProgressUpdate "Starting stage 1 3/10 [" = .ok (some 22) := by decide
example : yueProgressUpdate "1/0 [" = .error "division by zero" := by decide
example : yueProgressUpdate " 50%|##### | 1/2 [00:10]" = .ok (some 70) := by decide
example : yueProgressUpdate "hello" = .ok none := by decide

/-! ### Genre prefixing (yue_service.py lines 40-51)

`start_generation_job` reads `vocal_type = options.get("vocal_type", "female")`
and conditionally prepends a vocal-style marker to the genre text. -/

/-- Lines 40-51 of yue_service.py.  `vocalType = none` models an absent
`"vocal_type"` key (Python default `"female"`). -/
def processGenre (vocalType : Option String) (genreTxt : String) : String :=
  let vt := vocalType.getD "female"
  let lower := pyLower genreTxt
  if vt = "none" then
    if pyContains "instrumental" lower then genreTxt else "instrumental, " ++ genreTxt
  else if vt = "male" then
    if pyContains "male vocals" lower then genreTxt else "male vocals, " ++ genreTxt
  else if vt = "female" then
    if pyContains "female vocals" lower then genreTxt else "female vocals, " ++ genreTxt
  else genreTxt

/-! ### Title sanitization and the rename pass (yue_service.py lines 230-244) -/

/-- Lines 231-232: `options.get("title", "My Song").replace(" ", "_")`,
then keep only alphanumerics, `-` and `_`, then `rstrip()`.  `replace`
with a one-character needle is modelled as a character map. -/
def sanitizeTitle (title : String) : String :=
  let t1 : List Char := title.data.map (fun c => if c = ' ' then '_' else c)
  let t2 := t1.filter (fun c => pyIsAlnum c || c = '-' || c = '_')
  pyRstrip ⟨t2⟩

/-- Lines 237-239: one file of the rename loop.  A successful
`os.rename` gives the file the name `f"{title}_{fname}"`; a file whose
name already starts with the title keeps its name.  (An `os.rename`
failure is caught and merely logged; renames are modelled as
succeeding.) -/
def renameOne (title fname : String) : String :=
  if pyStartswith fname title then fname else title ++ "_" ++ fname

/-- Lines 234-244: the rename pass over the produced audio files. -/
def renamePass (title : String) (names : List String) : List String :=
  names.map (renameOne title)

/-! ### The generation job record and runner (yue_service.py) -/

/-- The job dictionary created at yue_service.py lines 63-71.  `error`
is `none` while the `"error"` key holds Python `None`. -/
structure YueJob where
  id : String
  status : String
  progress : Nat
  logs : List String
  outputFiles : List String
  createdAt : Nat
  error : Option String
deriving DecidableEq

/-- Lines 63-71: the record inserted into `jobs` before the background
thread starts. -/
def initialYueJob (jobId : String) (createdAt : Nat) : YueJob :=
  { id := jobId, status := "pending", progress := 0, logs := [],
    outputFiles := [], createdAt := createdAt, error := none }

/-- `start_generation_job` (lines 29-81): processes the genre text,
inserts the initial record, spawns `_run_yue_process`, and returns the
job id.  The result is (job record, genre file content, returned id);
file writes and the thread spawn are side effects outside the record. -/
def startGenerationJob (jobId : String) (createdAt : Nat)
    (genreTxt : String) (vocalType : Option String) : YueJob × String × String :=
  (initialYueJob jobId createdAt, processGenre vocalType genreTxt, jobId)

/-- One observable write of `_run_yue_process` to its job record. -/
inductive YEv where
  | setStatus (s : String)
  | setProgress (n : Nat)
  | addLog (l : String)
  | setError (m : String)
deriving DecidableEq

/-- Effect of one write on the job record. -/
def applyYEv (j : YueJob) : YEv → YueJob
  | .setStatus s => { j with status := s }
  | .setProgress n => { j with progress := n }
  | .addLog l => { j with logs := j.logs ++ [l] }
  | .setError m => { j with error := some m }

/-- Replay a write trace over a job record. -/
def runYueJob (j : YueJob) (evs : List YEv) : YueJob := evs.foldl applyYEv j

/-- The log-streaming loop (yue_service.py lines 194-222): each stdout
line is stripped; non-empty lines are appended to `logs` and fed through
the progress parser.  Returns the writes performed and `some m` when a
parsing step raised an exception with message `m` (which aborts the
loop and propagates to the handler at line 252). -/
def lineEvents : List String → List YEv × Option String
  | [] => ([], none)
  | l :: ls =>
    let s := pyStrip l
    if s = "" then lineEvents ls
    else
      match yueProgressUpdate s with
      | .error m => ([.addLog s], some m)
      | .ok none => (.addLog s :: (lineEvents ls).1, (lineEvents ls).2)
      | .ok (some p) => (.addLog s :: .setProgress p :: (lineEvents ls).1, (lineEvents ls).2)

/-- Stage-1 model repository and revision selection (lines 116-135). -/
def yueRepoSelect (language quality : String) : String × String :=
  (if language = "ja" then "bartowski/YuE-s1-7B-anneal-jp-kr-cot-exl2"
   else "Doctor-Shotgun/YuE-s1-7B-anneal-en-cot-exl2",
   if quality = "best" then "8.0bpw-h8"
   else if quality = "balanced" then "6.0bpw-h6"
   else "4.25bpw-h6")

/-- The `except` handler at lines 252-256: status, error and log writes
for a raised exception with message `m`. -/
def yueFailEvs (m : String) : List YEv :=
  [.setStatus "failed", .setError m, .addLog ("EXCEPTION: " ++ m)]

/-- Lines 226-250: writes after `process.wait()` depending on the exit
code (the rename pass touches only the filesystem, see `renamePass`). -/
def yueDoneEvs (rc : Int) : List YEv :=
  if rc = 0 then
    [.setStatus "completed", .setProgress 100, .addLog "Generation completed successfully."]
  else
    [.setStatus "failed",
     .setError ("Process exited with code " ++ toString rc),
     .addLog ("FAILED: Process exited with code " ++ toString rc)]

/-- The full write trace of `_run_yue_process` (yue_service.py lines
101-256).  Environment interactions are parameters: `d1`/`d2` are the
two `snapshot_download` calls (`Except.error m` models a raised
exception), `cmdStr` is `' '.join(cmd)` (an absolute-path command line),
`popen` is the `subprocess.Popen` call, `lines` the merged stdout/stderr
stream and `rc` the process exit code. -/
def yueTrace (language quality : String) (d1 d2 : Except String String)
    (cmdStr : String) (popen : Except String Unit)
    (lines : List String) (rc : Int) : List YEv :=
  let (repoId, revision) := yueRepoSelect language quality
  [.setStatus "processing",
   .addLog ("Using " ++ (pyUpper language) ++ " focus model: " ++ repoId ++ " (" ++ revision ++ ")"),
   .addLog ("Downloading Stage 1 model (" ++ revision ++ ")... This may take several minutes on first run."),
   .setProgress 2] ++
  match d1 with
  | .error m => yueFailEvs m
  | .ok p1 =>
    [.addLog ("Stage 1 model ready: " ++ p1), .setProgress 5,
     .addLog "Downloading Stage 2 model (8.0bpw-h8)..."] ++
    match d2 with
    | .error m => yueFailEvs m
    | .ok p2 =>
      [.addLog ("Stage 2 model ready: " ++ p2), .setProgress 8,
       .addLog ("Command: " ++ cmdStr)] ++
      match popen with
      | .error m => yueFailEvs m
      | .ok _ =>
        (lineEvents lines).1 ++
        match (lineEvents lines).2 with
        | some m => yueFailEvs m
        | none => yueDoneEvs rc

/-- Status values written by a trace. -/
def yueStatusWrites (evs : List YEv) : List String :=
  evs.filterMap fun e => match e with | .setStatus s => some s | _ => none

/-! ### The separation task (main.py)

`run_separation_task` mutates `tasks[task_id]`; `cancel_task` may write
`"cancelled"` from the request thread at any time. -/

/-- The `result` payload built at main.py lines 192-198. -/
structure SepResult where
  vocalsUrl : String
  instrumentalUrl : String
  vocalsPath : String
  instrumentalPath : String
  originalPath : String
deriving DecidableEq

/-- A `tasks[task_id]` entry.  The dictionary has no `"result"`/`"error"`
keys until they are assigned; `none` models an absent key.  There is no
`"logs"` key at all for separation tasks. -/
structure SepTask where
  status : String
  progress : Nat
  filename : String
  originalPath : String
  result : Option SepResult
  error : Option String
deriving DecidableEq

/-- `Path(filename).suffix` (CPython pathlib: the extension of the last
component; empty when the last component has no dot, starts with its
only dot, or ends with the dot). -/
def pathSuffix (filename : String) : String :=
  let name := (filename.data.reverse.takeWhile (fun c => c ≠ '/')).reverse
  let rev := name.reverse
  let after := rev.takeWhile (fun c => c ≠ '.')
  if after.length = rev.length then ""
  else
    let i := name.length - after.length - 1
    if 0 < i ∧ after.length ≠ 0 then ⟨'.' :: after.reverse⟩ else ""

/-- The `/separate` handler (main.py lines 213-239): saves the upload,
inserts the initial task record, spawns `run_separation_task`, and
returns `{"status": "success", "task_id": task_id}`.  The result is
(task record, returned task id). -/
def separateAudio (taskId filename : String) : SepTask × String :=
  let ext := let s := pathSuffix filename; if s = "" then ".mp3" else s
  ({ status := "queued", progress := 0, filename := filename,
     originalPath := "/uploads/" ++ taskId ++ ext,
     result := none, error := none }, taskId)

/-- `cancel_task` (main.py lines 253-260): for an existing task the
status is set to `"cancelled"` unconditionally. -/
def cancelTask (t : SepTask) : SepTask := { t with status := "cancelled" }

/-- The simulated-progress ticker (main.py lines 112-124): `current`
starts at 1 and is incremented once per second while strictly below 95.
`tickerVal k` is `current` after `k` loop iterations. -/
def tickerVal : Nat → Nat
  | 0 => 1
  | k + 1 => let c := tickerVal k; if c < 95 then c + 1 else c

/-- One observable action of `run_separation_task`.  `externalCancel` is
a `cancel_task` write from the request thread (placed where it is
observed); the ticker events record the thread lifecycle calls
(`Event.set`, `Thread.join`). -/
inductive Ev where
  | setStatus (s : String)
  | setProgress (n : Nat)
  | tickerStart
  | tickerStop
  | tickerJoin
  | externalCancel
  | setResult (r : SepResult)
  | setError (m : String)
deriving DecidableEq

/-- Where `run_separation_task` can fail.  `importError` is the
guarded import at lines 87-90; `separatorInitError`/`loadModelError` are raised
by `Separator(...)`/`load_model`; `separateError` is raised by
`separator.separate` (other raise sites inside the `try` are modelled by
the nearest of these). -/
inductive SepOutcome where
  | importError
  | separatorInitError (m : String)
  | loadModelError (m : String)
  | separateError (m : String)
  | separateOk
deriving DecidableEq

/-- The `ImportError` message raised at main.py line 90. -/
def importErrorMsg : String :=
  "audio-separator library not found. Please run " ++ String.mk ['\''] ++
  "pip install audio-separator[gpu]" ++ String.mk ['\'']

/-- The `except` handler at main.py lines 205-208. -/
def sepFailEvs (m : String) : List Ev := [.setStatus "failed", .setError m]

/-- The result dictionary of lines 192-198.  The two `_path` fields are
filesystem-dependent (`... if final.exists() else ""`), so the absolute
path strings and existence flags are parameters; `origWeb` is the
`original_web_path` computed at lines 183-190. -/
def mkSepResult (taskId vocalsPath instPath origWeb : String)
    (vExists iExists : Bool) : SepResult :=
  { vocalsUrl := "/outputs/separated/" ++ taskId ++ "/vocals.wav"
    instrumentalUrl := "/outputs/separated/" ++ taskId ++ "/instrumental.wav"
    vocalsPath := if vExists then vocalsPath else ""
    instrumentalPath := if iExists then instPath else ""
    originalPath := origWeb }

/-- The write trace of `run_separation_task` (main.py lines 70-211), in
program order: status `processing`, progress 5, 10, the guarded import,
`Separator(...)`, progress 20, `load_model`, progress 1, ticker start,
`separator.separate`, the `finally` block (`stop_progress.set()` then
`progress_thread.join()`), the cancellation checkpoint at line 142, the
result/terminal writes.  `cancelledAtCheck` is the value the checkpoint
reads; when true the external `"cancelled"` write is placed just before
the checkpoint.  The ticker thread itself (whose writes are guarded by
`status == "processing"` and the stop event) is modelled by
`tickerVal`. -/
def sepTrace (taskId : String) (o : SepOutcome) (cancelledAtCheck : Bool)
    (vocalsPath instPath origWeb : String) (vExists iExists : Bool) : List Ev :=
  [.setStatus "processing", .setProgress 5, .setProgress 10] ++
  match o with
  | .importError => sepFailEvs importErrorMsg
  | .separatorInitError m => sepFailEvs m
  | .loadModelError m => [.setProgress 20] ++ sepFailEvs m
  | .separateError m =>
      [.setProgress 20, .setProgress 1, .tickerStart, .tickerStop, .tickerJoin] ++ sepFailEvs m
  | .separateOk =>
      [.setProgress 20, .setProgress 1, .tickerStart, .tickerStop, .tickerJoin] ++
      if cancelledAtCheck then [.externalCancel]
      else [.setResult (mkSepResult taskId vocalsPath instPath origWeb vExists iExists),
            .setStatus "completed", .setProgress 100]

/-- Effect of one action on the task record. -/
def applySepEv (t : SepTask) : Ev → SepTask
  | .setStatus s => { t with status := s }
  | .setProgress n => { t with progress := n }
  | .tickerStart => t
  | .tickerStop => t
  | .tickerJoin => t
  | .externalCancel => { t with status := "cancelled" }
  | .setResult r => { t with result := some r }
  | .setError m => { t with error := some m }

/-- Replay a trace over a task record. -/
def sepRun (t : SepTask) (evs : List Ev) : SepTask := evs.foldl applySepEv t

/-- Status values written by a separation trace (external cancel writes
`"cancelled"`). -/
def sepStatusWrites (evs : List Ev) : List String :=
  evs.filterMap fun e => match e with
    | .setStatus s => some s
    | .externalCancel => some "cancelled"
    | _ => none

/-- Progress values written by a separation trace. -/
def sepProgressWrites (evs : List Ev) : List Nat :=
  evs.filterMap fun e => match e with | .setProgress n => some n | _ => none

/-- Terminal statuses (spec glossary). -/
def isTerminal (s : String) : Bool :=
  s = "completed" || s = "failed" || s = "cancelled"

/-- Legal status transitions for a separation task. -/
def sepLegal (a b : String) : Bool :=
  (a = "queued" && b = "processing") ||
  (a = "processing" && (b = "completed" || b = "failed" || b = "cancelled"))

/-- Legal status transitions for a generation job. -/
def yueLegal (a b : String) : Bool :=
  (a = "pending" && b = "processing") ||
  (a = "processing" && (b = "completed" || b = "failed"))

/-! ### Helper lemmas -/

theorem pyStartswith_append (t s : String) : pyStartswith (t ++ s) t = true := by
  unfold pyStartswith
  rw [String.data_append, List.isPrefixOf_iff_prefix]
  exact List.prefix_append _ _

theorem renameOne_idem (title fname : String) :
    renameOne title (renameOne title fname) = renameOne title fname := by
  by_cases hc : pyStartswith fname title = true
  · simp [renameOne, hc]
  · simp [renameOne, hc, String.append_assoc, pyStartswith_append]

theorem yueProgressUpdate_le (line : String) (v : Nat)
    (h : yueProgressUpdate line = .ok (some v)) : v ≤ 90 := by
  unfold yueProgressUpdate at h
  repeat' split at h
  all_goals simp_all
  all_goals omega

theorem lineEvents_mem (ls : List String) :
    ∀ ev ∈ (lineEvents ls).1,
      (∃ l, ev = YEv.addLog l) ∨ (∃ p, ev = YEv.setProgress p ∧ p ≤ 90) := by
  induction ls with
  | nil => intro ev h; simp [lineEvents] at h
  | cons l ls ih =>
    intro ev h
    simp only [lineEvents] at h
    by_cases hs : pyStrip l = ""
    · rw [if_pos hs] at h
      exact ih ev h
    · rw [if_neg hs] at h
      rcases heq : yueProgressUpdate (pyStrip l) with m | op
      · rw [heq] at h
        simp at h
        exact Or.inl ⟨_, h⟩
      · rcases op with _ | p
        · rw [heq] at h
          simp at h
          rcases h with h | h
          · exact Or.inl ⟨_, h⟩
          · exact ih ev h
        · rw [heq] at h
          simp at h
          rcases h with h | h | h
          · exact Or.inl ⟨_, h⟩
          · exact Or.inr ⟨p, h, yueProgressUpdate_le _ p heq⟩
          · exact ih ev h

theorem foldl_logProg (evs : List YEv)
    (h : ∀ ev ∈ evs, (∃ l, ev = YEv.addLog l) ∨ (∃ p, ev = YEv.setProgress p ∧ p ≤ 90)) :
    ∀ j : YueJob, (evs.foldl applyYEv j).status = j.status ∧
      (evs.foldl applyYEv j).error = j.error := by
  induction evs with
  | nil => intro j; exact ⟨rfl, rfl⟩
  | cons e evs ih =>
    intro j
    have he := h e (by simp)
    have ih2 := ih (fun ev hm => h ev (by simp [hm])) (applyYEv j e)
    rcases he with ⟨l, rfl⟩ | ⟨p, rfl, _⟩ <;>
      simpa [applyYEv] using ih2

theorem lineEvents_statusWrites (ls : List String) :
    yueStatusWrites (lineEvents ls).1 = [] := by
  unfold yueStatusWrites
  rw [List.filterMap_eq_nil_iff]
  intro ev hm
  rcases lineEvents_mem ls ev hm with ⟨l, rfl⟩ | ⟨p, rfl, _⟩ <;> rfl

theorem lineEvents_status_filterMap (ls : List String) :
    ((lineEvents ls).1.filterMap fun e =>
      match e with | YEv.setStatus s => some s | _ => none) = [] :=
  lineEvents_statusWrites ls

theorem lineEvents_fold (ls : List String) (j : YueJob) :
    ((lineEvents ls).1.foldl applyYEv j).status = j.status ∧
      ((lineEvents ls).1.foldl applyYEv j).error = j.error :=
  foldl_logProg _ (lineEvents_mem ls) j

theorem lineEvents_fold_status (ls : List String) (j : YueJob) :
    ((lineEvents ls).1.foldl applyYEv j).status = j.status :=
  (lineEvents_fold ls j).1

theorem lineEvents_fold_error (ls : List String) (j : YueJob) :
    ((lineEvents ls).1.foldl applyYEv j).error = j.error :=
  (lineEvents_fold ls j).2

/-- Derived characterization of the final (status, error) of one
generation run, by the first failing step; used to settle C3 and C5. -/
def yueOutcomePair (d1 d2 : Except String String) (pk : Except String Unit)
    (lines : List String) (rc : Int) : String × Option String :=
  match d1 with
  | .error m => ("failed", some m)
  | .ok _ => match d2 with
    | .error m => ("failed", some m)
    | .ok _ => match pk with
      | .error m => ("failed", some m)
      | .ok _ => match (lineEvents lines).2 with
        | some m => ("failed", some m)
        | none =>
          if rc = 0 then ("completed", none)
          else ("failed", some ("Process exited with code " ++ toString rc))

theorem runYue_final (jid : String) (t0 : Nat) (lang q cmd : String)
    (d1 d2 : Except String String) (pk : Except String Unit)
    (lines : List String) (rc : Int) :
    (runYueJob (initialYueJob jid t0) (yueTrace lang q d1 d2 cmd pk lines rc)).status =
      (yueOutcomePair d1 d2 pk lines rc).1 ∧
    (runYueJob (initialYueJob jid t0) (yueTrace lang q d1 d2 cmd pk lines rc)).error =
      (yueOutcomePair d1 d2 pk lines rc).2 := by
  rcases d1 with m | p1 <;> rcases d2 with m | p2 <;> rcases pk with m | u <;>
    rcases h2 : (lineEvents lines).2 with _ | m <;>
    by_cases hrc : rc = 0 <;>
    simp_all [runYueJob, yueTrace, yueFailEvs, yueDoneEvs, yueOutcomePair,
      applyYEv, initialYueJob, List.foldl_append,
      lineEvents_fold_status, lineEvents_fold_error]

/-! ### Claim C9 -/

/-- C9: `start_generation_job` prefixes the genre text according to
`vocal_type` (defaulting to `"female"` when the option is absent): it
prepends `"instrumental, "` for `"none"`, `"male vocals, "` for
`"male"` and `"female vocals, "` for `"female"`, but only when the
marker substring is not already present in the genre text compared
case-insensitively, so a present marker is never duplicated; any other
vocal type leaves the genre unchanged. -/
theorem C9_vocal_type_prefix (genre : String) :
    processGenre none genre = processGenre (some "female") genre ∧
    processGenre (some "none") genre =
      (if pyContains "instrumental" (pyLower genre) then genre
       else "instrumental, " ++ genre) ∧
    processGenre (some "male") genre =
      (if pyContains "male vocals" (pyLower genre) then genre
       else "male vocals, " ++ genre) ∧
    processGenre (some "female") genre =
      (if pyContains "female vocals" (pyLower genre) then genre
       else "female vocals, " ++ genre) ∧
    processGenre (some "robot") genre = genre :=
  ⟨rfl, rfl, rfl, rfl, rfl⟩

/-! ### Claim C10 -/

/-- C10: the rename pass run on successful generation completion
renames exactly those produced files whose names do not already start
with the sanitized title, prefixing them with the title and an
underscore; files already carrying the prefix are unchanged, and
applying the pass twice yields the same names as applying it once. -/
theorem C10_rename_pass_idempotent (title : String) (names : List String) :
    renamePass (sanitizeTitle title) (renamePass (sanitizeTitle title) names) =
      renamePass (sanitizeTitle title) names ∧
    (∀ n, pyStartswith n (sanitizeTitle title) = true →
      renameOne (sanitizeTitle title) n = n) ∧
    (∀ n, pyStartswith n (sanitizeTitle title) = false →
      renameOne (sanitizeTitle title) n = sanitizeTitle title ++ "_" ++ n) := by
  refine ⟨?_, ?_, ?_⟩
  · induction names with
    | nil => rfl
    | cons n ns ih =>
      simp only [renamePass, List.map_cons] at ih ⊢
      rw [renameOne_idem]
      exact congrArg _ ih
  · intro n h
    simp [renameOne, h]
  · intro n h
    simp [renameOne, h]

/-- Witness for C10 at a concrete title and file name. -/
theorem C10_rename_pass_idempotent_witness :
    pyStartswith "other.mp3" (sanitizeTitle "My Song") = false ∧
    renameOne (sanitizeTitle "My Song") "other.mp3" =
      sanitizeTitle "My Song" ++ "_" ++ "other.mp3" :=
  ⟨by decide, (C10_rename_pass_idempotent "My Song" ["other.mp3"]).2.2 "other.mp3" (by decide)⟩

/-! ### Claim C7 -/

/-- C7: progress never reaches 100 except on the final explicit
job-completed transition written by the runner itself: the simulated
ticker is capped at 95 (strictly below 100), the generation text
parser never assigns a value above 90, and in either runner a written
progress of 100 occurs only in a trace that also writes status
`"completed"`. -/
theorem C7_no_premature_100 :
    (∀ k, tickerVal k ≤ 95) ∧
    (∀ line v, yueProgressUpdate line = .ok (some v) → v ≤ 90) ∧
    (∀ taskId o c vp ip ow ve ie n,
      Ev.setProgress n ∈ sepTrace taskId o c vp ip ow ve ie → n = 100 →
      Ev.setStatus "completed" ∈ sepTrace taskId o c vp ip ow ve ie) ∧
    (∀ lang q d1 d2 cmd pk lines rc n,
      YEv.setProgress n ∈ yueTrace lang q d1 d2 cmd pk lines rc → n = 100 →
      YEv.setStatus "completed" ∈ yueTrace lang q d1 d2 cmd pk lines rc) := by
  refine ⟨?_, ?_, ?_, ?_⟩
  · intro k
    induction k with
    | zero => decide
    | succ k ih => simp only [tickerVal]; split <;> omega
  · exact yueProgressUpdate_le
  · intro taskId o c vp ip ow ve ie n hmem h100
    subst h100
    cases o <;> cases c <;> simp_all [sepTrace, sepFailEvs]
  · intro lang q d1 d2 cmd pk lines rc n hmem h100
    subst h100
    have hline : YEv.setProgress 100 ∉ (lineEvents lines).1 := by
      intro hm
      rcases lineEvents_mem lines _ hm with ⟨l, hl⟩ | ⟨p, hp, hple⟩
      · exact absurd hl (by simp)
      · cases hp; omega
    rcases d1 with m | p1 <;> rcases d2 with m | p2 <;> rcases pk with m | u <;>
      rcases h2 : (lineEvents lines).2 with _ | m <;>
      by_cases hrc : rc = 0 <;>
      simp_all [yueTrace, yueFailEvs, yueDoneEvs]

/-- Witness for C7: a written 100 on the successful separation path
comes with a written `"completed"`. -/
theorem C7_no_premature_100_witness :
    Ev.setProgress 100 ∈ sepTrace "t1" .separateOk false "v" "i" "o" true true ∧
    Ev.setStatus "completed" ∈ sepTrace "t1" .separateOk false "v" "i" "o" true true :=
  ⟨by decide,
   C7_no_premature_100.2.2.1 "t1" .separateOk false "v" "i" "o" true true 100 (by decide) rfl⟩

/-! ### Claim C8 -/

/-- True for the runner-written terminal actions: a terminal status
write or the final progress-100 write. -/
def isFinalWrite : Ev → Bool
  | .setStatus s => isTerminal s
  | .setProgress n => n == 100
  | _ => false

/-- C8: whenever the separation runner started the ticker thread, its
trace splits as `pre ++ [tickerStop, tickerJoin] ++ post` where `pre`
contains no terminal status write and no final progress write: the
ticker is signaled to stop and joined (the `finally` block at main.py
lines 136-139) before the runner records any terminal status or the
final progress. -/
theorem C8_ticker_joined_before_terminal (taskId : String) (o : SepOutcome)
    (c ve ie : Bool) (vp ip ow : String)
    (h : Ev.tickerStart ∈ sepTrace taskId o c vp ip ow ve ie) :
    ∃ pre post,
      sepTrace taskId o c vp ip ow ve ie = pre ++ [Ev.tickerStop, Ev.tickerJoin] ++ post ∧
      ∀ ev ∈ pre, isFinalWrite ev = false := by
  cases o with
  | importError => simp [sepTrace, sepFailEvs] at h
  | separatorInitError m => simp [sepTrace, sepFailEvs] at h
  | loadModelError m => simp [sepTrace, sepFailEvs] at h
  | separateError m =>
    exact ⟨[.setStatus "processing", .setProgress 5, .setProgress 10, .setProgress 20,
            .setProgress 1, .tickerStart], sepFailEvs m, by simp [sepTrace], by decide⟩
  | separateOk =>
    cases c with
    | false =>
      exact ⟨[.setStatus "processing", .setProgress 5, .setProgress 10, .setProgress 20,
              .setProgress 1, .tickerStart],
             [.setResult (mkSepResult taskId vp ip ow ve ie),
              .setStatus "completed", .setProgress 100], by simp [sepTrace], by decide⟩
    | true =>
      exact ⟨[.setStatus "processing", .setProgress 5, .setProgress 10, .setProgress 20,
              .setProgress 1, .tickerStart], [.externalCancel], by simp [sepTrace], by decide⟩

/-- Witness for C8 at the successful concrete trace. -/
theorem C8_ticker_joined_before_terminal_witness :
    Ev.tickerStart ∈ sepTrace "t1" .separateOk false "v" "i" "o" true true ∧
    ∃ pre post,
      sepTrace "t1" .separateOk false "v" "i" "o" true true =
        pre ++ [Ev.tickerStop, Ev.tickerJoin] ++ post ∧
      ∀ ev ∈ pre, isFinalWrite ev = false :=
  ⟨by decide, C8_ticker_joined_before_terminal "t1" .separateOk false true true "v" "i" "o" (by decide)⟩

/-! ### Claim C1 -/

/-- C1 counterexample: on the successful path the separation runner's
progress writes are 5, 10, 20, 1, 100 (main.py lines 76, 84, 99, 106,
201) — the reset from 20 to 1 before the ticker starts breaks
monotonicity over the job's lifetime. -/
theorem C1_cex_progress_not_monotone :
    sepProgressWrites (sepTrace "t1" .separateOk false "v" "i" "o" true true) =
      [5, 10, 20, 1, 100] ∧
    ¬ List.Chain' (fun a b : Nat => a ≤ b)
        (sepProgressWrites (sepTrace "t1" .separateOk false "v" "i" "o" true true)) := by
  constructor
  · decide
  · rw [show sepProgressWrites (sepTrace "t1" .separateOk false "v" "i" "o" true true) =
        [5, 10, 20, 1, 100] from by decide]
    simp [List.chain'_cons]

/-- C1 amended: every progress value either runner writes is an integer
in 0-100, and the simulated ticker is monotone and capped at 95; but
the write sequence over the whole lifetime is not monotone (the
separation runner resets progress from 20 to 1 before starting the
ticker, and the value 100 is written right after status `"completed"`). -/
theorem C1_amended_progress_in_range :
    (∀ taskId o c vp ip ow ve ie n,
      Ev.setProgress n ∈ sepTrace taskId o c vp ip ow ve ie → n ≤ 100) ∧
    (∀ lang q d1 d2 cmd pk lines rc n,
      YEv.setProgress n ∈ yueTrace lang q d1 d2 cmd pk lines rc → n ≤ 100) ∧
    (∀ k, tickerVal k ≤ tickerVal (k + 1)) := by
  refine ⟨?_, ?_, ?_⟩
  · intro taskId o c vp ip ow ve ie n hmem
    cases o <;> cases c <;> simp_all [sepTrace, sepFailEvs] <;> omega
  · intro lang q d1 d2 cmd pk lines rc n hmem
    have hline : ∀ p, YEv.setProgress p ∈ (lineEvents lines).1 → p ≤ 90 := by
      intro p hm
      rcases lineEvents_mem lines _ hm with ⟨l, hl⟩ | ⟨p2, hp, hple⟩
      · exact absurd hl (by simp)
      · cases hp; omega
    rcases d1 with m | p1 <;> rcases d2 with m | p2 <;> rcases pk with m | u <;>
      rcases h2 : (lineEvents lines).2 with _ | m <;>
      by_cases hrc : rc = 0 <;>
      simp_all [yueTrace, yueFailEvs, yueDoneEvs]
    all_goals
      repeat (first
        | omega
        | (rcases hmem with hmem | hmem)
        | exact Nat.le_trans (hline n hmem) (by omega))
  · intro k
    simp only [tickerVal]
    split <;> omega

/-- Witness for C1 amended: the reset write of 1 is within range. -/
theorem C1_amended_progress_in_range_witness :
    Ev.setProgress 1 ∈ sepTrace "t1" .separateOk false "v" "i" "o" true true ∧
    (1 : Nat) ≤ 100 :=
  ⟨by decide,
   C1_amended_progress_in_range.1 "t1" .separateOk false "v" "i" "o" true true 1 (by decide)⟩

/-! ### Claim C2 -/

theorem yueStatusWrites_append (a b : List YEv) :
    yueStatusWrites (a ++ b) = yueStatusWrites a ++ yueStatusWrites b := by
  simp [yueStatusWrites, List.filterMap_append]

/-- C2 counterexample: `cancel_task` (main.py lines 253-260) writes
`"cancelled"` unconditionally, even when the task is already terminal:
a completed separation task is moved completed -> cancelled by a later
cancel request, so a written terminal status does not end the
transitions. -/
theorem C2_cex_cancel_after_completed :
    (sepRun (separateAudio "t1" "song.mp3").1
        (sepTrace "t1" .separateOk false "v" "i" "o" true true)).status = "completed" ∧
    isTerminal "completed" = true ∧
    (cancelTask (sepRun (separateAudio "t1" "song.mp3").1
        (sepTrace "t1" .separateOk false "v" "i" "o" true true))).status = "cancelled" :=
  ⟨by decide, by decide, by decide⟩

/-- C2 amended: the runner-side transitions follow the state machine —
every separation trace's status writes form a legal chain from
`"queued"` (queued -> processing -> one terminal status, the external
cancel write only ever following `"processing"`), and a checkpoint that
observed the cancellation never writes `"completed"`, so the runner
never overwrites a cancellation with a success; generation traces form
a legal chain from `"pending"` (generation jobs start as `"pending"`
and support no cancellation); but `cancel_task` itself overwrites any
status, including terminal ones (see the counterexample). -/
theorem C2_amended_runner_state_machine :
    (∀ taskId o c vp ip ow ve ie,
      List.Chain (fun a b => sepLegal a b = true) "queued"
        (sepStatusWrites (sepTrace taskId o c vp ip ow ve ie))) ∧
    (∀ taskId o vp ip ow ve ie,
      Ev.setStatus "completed" ∉ sepTrace taskId o true vp ip ow ve ie) ∧
    (∀ lang q d1 d2 cmd pk lines rc,
      List.Chain (fun a b => yueLegal a b = true) "pending"
        (yueStatusWrites (yueTrace lang q d1 d2 cmd pk lines rc))) := by
  refine ⟨?_, ?_, ?_⟩
  · intro taskId o c vp ip ow ve ie
    cases o <;> cases c <;>
      simp [sepTrace, sepFailEvs, sepStatusWrites, List.chain_cons, sepLegal]
  · intro taskId o vp ip ow ve ie
    cases o <;> simp [sepTrace, sepFailEvs]
  · intro lang q d1 d2 cmd pk lines rc
    rcases d1 with m | p1 <;> rcases d2 with m | p2 <;> rcases pk with m | u <;>
      rcases h2 : (lineEvents lines).2 with _ | m <;>
      by_cases hrc : rc = 0 <;>
      simp_all [yueTrace, yueFailEvs, yueDoneEvs, yueStatusWrites_append,
        lineEvents_status_filterMap, yueStatusWrites, List.chain_cons, yueLegal]

/-- Witness for C2 amended: on the path whose checkpoint observed the
cancellation, the runner never writes `"completed"`. -/
theorem C2_amended_runner_state_machine_witness :
    Ev.setStatus "completed" ∉ sepTrace "t1" .separateOk true "v" "i" "o" true true :=
  C2_amended_runner_state_machine.2.1 "t1" .separateOk "v" "i" "o" true true

/-! ### Claim C3 -/

/-- C3 counterexample: the separation runner writes `result` (main.py
line 192) before it writes `status = "completed"` (line 200), so after
the first nine actions of the successful trace the record is observable
with status `"processing"` and `result` already populated. -/
theorem C3_cex_result_set_while_processing :
    (sepRun (separateAudio "t1" "song.mp3").1
        ((sepTrace "t1" .separateOk false "v" "i" "o" true true).take 9)).status =
      "processing" ∧
    (sepRun (separateAudio "t1" "song.mp3").1
        ((sepTrace "t1" .separateOk false "v" "i" "o" true true).take 9)).result.isSome =
      true :=
  ⟨by decide, by decide⟩

/-- C3 amended: at quiescence (after the runner finished, with no later
cancel request) the invariant holds: a separation record has `result`
populated iff status is `"completed"` and `error` populated iff status
is `"failed"`, and a generation record has `error` populated iff status
is `"failed"`; transiently, `result` is populated one write before the
status becomes `"completed"` (see the counterexample) and `error` one
write after the status becomes `"failed"`. -/
theorem C3_amended_result_error_iff_at_quiescence :
    (∀ taskId fn o c vp ip ow ve ie,
      ((sepRun (separateAudio taskId fn).1
          (sepTrace taskId o c vp ip ow ve ie)).result.isSome = true ↔
        (sepRun (separateAudio taskId fn).1
          (sepTrace taskId o c vp ip ow ve ie)).status = "completed") ∧
      ((sepRun (separateAudio taskId fn).1
          (sepTrace taskId o c vp ip ow ve ie)).error.isSome = true ↔
        (sepRun (separateAudio taskId fn).1
          (sepTrace taskId o c vp ip ow ve ie)).status = "failed")) ∧
    (∀ jid t0 lang q cmd d1 d2 pk lines rc,
      (runYueJob (initialYueJob jid t0)
          (yueTrace lang q d1 d2 cmd pk lines rc)).error.isSome = true ↔
        (runYueJob (initialYueJob jid t0)
          (yueTrace lang q d1 d2 cmd pk lines rc)).status = "failed") := by
  refine ⟨?_, ?_⟩
  · intro taskId fn o c vp ip ow ve ie
    cases o <;> cases c <;>
      simp [sepRun, sepTrace, sepFailEvs, applySepEv, separateAudio]
  · intro jid t0 lang q cmd d1 d2 pk lines rc
    obtain ⟨hs, he⟩ := runYue_final jid t0 lang q cmd d1 d2 pk lines rc
    rw [hs, he]
    unfold yueOutcomePair
    rcases d1 with m | p1 <;> rcases d2 with m | p2 <;> rcases pk with m | u <;>
      rcases h2 : (lineEvents lines).2 with _ | m <;>
      by_cases hrc : rc = 0 <;>
      simp_all

/-- Witness for C3 amended at the successful concrete trace. -/
theorem C3_amended_result_error_iff_at_quiescence_witness :
    ((sepRun (separateAudio "t1" "song.mp3").1
        (sepTrace "t1" .separateOk false "v" "i" "o" true true)).result.isSome = true ↔
      (sepRun (separateAudio "t1" "song.mp3").1
        (sepTrace "t1" .separateOk false "v" "i" "o" true true)).status = "completed") :=
  (C3_amended_result_error_iff_at_quiescence.1 "t1" "song.mp3" .separateOk false
    "v" "i" "o" true true).1

/-! ### Claim C5 -/

theorem procExitMsg_ne_empty (t : String) :
    ("Process exited with code " ++ t) ≠ "" := by
  intro h
  have hl := congrArg String.length h
  rw [String.length_append] at hl
  have h25 : ("Process exited with code " : String).length = 25 := rfl
  have h0 : ("" : String).length = 0 := rfl
  omega

/-- C5 counterexample: an exception whose `str()` is empty (for
example a bare `Exception()` raised inside `snapshot_download`) is
caught and recorded as `error = str(e) = ""`, so the diagnostic error
message of a failed job can be empty, contrary to the claim. -/
theorem C5_cex_empty_error_message :
    (runYueJob (initialYueJob "j1" 0)
        (yueTrace "en" "fast" (.error "") (.ok "p2") "cmd" (.ok ()) [] 0)).status =
      "failed" ∧
    (runYueJob (initialYueJob "j1" 0)
        (yueTrace "en" "fast" (.error "") (.ok "p2") "cmd" (.ok ()) [] 0)).error =
      some "" ∧
    ("" : String).length = 0 :=
  ⟨by decide, by decide, rfl⟩

/-- C5 amended: every failure inside either background runner is caught
and converted to a terminal state: a generation run always ends
`"completed"` or `"failed"`, a failed generation run always has `error`
set (to the exception's message, which is empty when the exception
carries no text), a non-zero exit code yields the non-empty message
`"Process exited with code N"`, and every separation run ends in a
terminal status. -/
theorem C5_amended_failures_caught :
    (∀ jid t0 lang q cmd d1 d2 pk lines rc,
      (runYueJob (initialYueJob jid t0)
          (yueTrace lang q d1 d2 cmd pk lines rc)).status = "completed" ∨
      (runYueJob (initialYueJob jid t0)
          (yueTrace lang q d1 d2 cmd pk lines rc)).status = "failed") ∧
    (∀ jid t0 lang q cmd d1 d2 pk lines rc,
      (runYueJob (initialYueJob jid t0)
          (yueTrace lang q d1 d2 cmd pk lines rc)).status = "failed" →
      ∃ m, (runYueJob (initialYueJob jid t0)
          (yueTrace lang q d1 d2 cmd pk lines rc)).error = some m) ∧
    (∀ jid t0 lang q cmd lines rc p1 p2,
      (lineEvents lines).2 = none → rc ≠ 0 →
      (runYueJob (initialYueJob jid t0)
          (yueTrace lang q (.ok p1) (.ok p2) cmd (.ok ()) lines rc)).error =
        some ("Process exited with code " ++ toString rc) ∧
      ("Process exited with code " ++ toString rc) ≠ "") ∧
    (∀ taskId fn o c vp ip ow ve ie,
      isTerminal (sepRun (separateAudio taskId fn).1
        (sepTrace taskId o c vp ip ow ve ie)).status = true) := by
  refine ⟨?_, ?_, ?_, ?_⟩
  · intro jid t0 lang q cmd d1 d2 pk lines rc
    obtain ⟨hs, _⟩ := runYue_final jid t0 lang q cmd d1 d2 pk lines rc
    rw [hs]
    unfold yueOutcomePair
    rcases d1 with m | p1 <;> rcases d2 with m | p2 <;> rcases pk with m | u <;>
      rcases h2 : (lineEvents lines).2 with _ | m <;>
      by_cases hrc : rc = 0 <;>
      simp_all
  · intro jid t0 lang q cmd d1 d2 pk lines rc hfail
    obtain ⟨hs, he⟩ := runYue_final jid t0 lang q cmd d1 d2 pk lines rc
    rw [hs] at hfail
    rw [he]
    unfold yueOutcomePair at hfail ⊢
    rcases d1 with m | p1 <;> rcases d2 with m | p2 <;> rcases pk with m | u <;>
      rcases h2 : (lineEvents lines).2 with _ | m <;>
      by_cases hrc : rc = 0 <;>
      simp_all
  · intro jid t0 lang q cmd lines rc p1 p2 h2 hrc
    obtain ⟨_, he⟩ := runYue_final jid t0 lang q cmd (.ok p1) (.ok p2) (.ok ()) lines rc
    rw [he]
    unfold yueOutcomePair
    simp [h2, hrc, procExitMsg_ne_empty]
  · intro taskId fn o c vp ip ow ve ie
    cases o <;> cases c <;>
      simp [sepRun, sepTrace, sepFailEvs, applySepEv, separateAudio, isTerminal]

/-- Witness for C5 amended at a concrete failing exit code. -/
theorem C5_amended_failures_caught_witness :
    (lineEvents []).2 = none ∧ (1 : Int) ≠ 0 ∧
    (runYueJob (initialYueJob "j1" 0)
        (yueTrace "en" "fast" (.ok "a") (.ok "b") "cmd" (.ok ()) [] 1)).error =
      some ("Process exited with code " ++ toString (1 : Int)) ∧
    ("Process exited with code " ++ toString (1 : Int)) ≠ "" :=
  ⟨rfl, by decide,
   (C5_amended_failures_caught.2.2.1 "j1" 0 "en" "fast" "cmd" [] 1 "a" "b" rfl (by decide)).1,
   (C5_amended_failures_caught.2.2.1 "j1" 0 "en" "fast" "cmd" [] 1 "a" "b" rfl (by decide)).2⟩

/-! ### Claim C6 -/

/-- C6 counterexample: a freshly inserted generation job record has
status `"pending"` (yue_service.py line 65), not `"queued"`. -/
theorem C6_cex_generation_initial_status_pending :
    (initialYueJob "job-1" 0).status = "pending" ∧ ("pending" : String) ≠ "queued" :=
  ⟨rfl, by decide⟩

/-- C6 amended: each submission inserts a fresh record before any
background work runs and the call returns the job id immediately; a
separation task starts with status `"queued"`, progress 0 and no
result or error (the separation record carries no logs list at all),
while a generation job starts with status `"pending"`, progress 0,
empty logs and no error. -/
theorem C6_amended_initial_records (taskId fn jid genre : String)
    (vt : Option String) (t0 : Nat) :
    (separateAudio taskId fn).1.status = "queued" ∧
    (separateAudio taskId fn).1.progress = 0 ∧
    (separateAudio taskId fn).1.result = none ∧
    (separateAudio taskId fn).1.error = none ∧
    (separateAudio taskId fn).2 = taskId ∧
    (startGenerationJob jid t0 genre vt).1.status = "pending" ∧
    (startGenerationJob jid t0 genre vt).1.progress = 0 ∧
    (startGenerationJob jid t0 genre vt).1.logs = [] ∧
    (startGenerationJob jid t0 genre vt).1.error = none ∧
    (startGenerationJob jid t0 genre vt).2.2 = jid :=
  ⟨rfl, rfl, rfl, rfl, rfl, rfl, rfl, rfl, rfl, rfl⟩

/-! ### Claim C4 -/

/-- C4 counterexample: the line `"1/0 ["` is matched by the token
pattern `(\d+)/(\d+)\s*\[` with total 0; Python then evaluates
`int((1/0)*40)` and raises `ZeroDivisionError`, which aborts the
streaming loop and fails the job — the malformed numeric capture is
not ignored. -/
theorem C4_cex_zero_total_raises :
    yueProgressUpdate "1/0 [" = .error "division by zero" := by decide

/-- C4 amended: fraction parsing takes priority over the milestone
substrings: a line matched by the token pattern `(\d+)/(\d+)\s*\[` is
interpolated — in the band [50, 90] (capped at 90) from the first
`(\d+)/(\d+)` capture when the stage-2 heuristic of line 207 fires,
otherwise in the band [10, 50] (capped at 50) — and a zero denominator
raises `ZeroDivisionError` (failing the job) rather than being
ignored; only token-free lines hit the milestones `"Starting stage 1"`
-> 10, `"Starting stage 2"` -> 50, `"postprocessing"`/`"vocoder"`
(case-insensitive) -> 90, checked in that order; all other lines leave
progress unchanged. -/
theorem C4_amended_line_parsing (line : String) :
    (∀ c t, findToken line.data = some (c, t) → stage2Cond line = false → t ≠ 0 →
      yueProgressUpdate line = .ok (some (min (10 + c * 40 / t) 50)) ∧
      10 ≤ min (10 + c * 40 / t) 50 ∧ min (10 + c * 40 / t) 50 ≤ 50) ∧
    (∀ c t cs ts, findToken line.data = some (c, t) → stage2Cond line = true →
      findFrac line.data = some (cs, ts) → ts ≠ 0 →
      yueProgressUpdate line = .ok (some (min (50 + cs * 40 / ts) 90)) ∧
      50 ≤ min (50 + cs * 40 / ts) 90 ∧ min (50 + cs * 40 / ts) 90 ≤ 90) ∧
    (∀ c t, findToken line.data = some (c, t) → stage2Cond line = false → t = 0 →
      yueProgressUpdate line = .error "division by zero") ∧
    (findToken line.data = none → pyContains "Starting stage 1" line = true →
      yueProgressUpdate line = .ok (some 10)) ∧
    (findToken line.data = none → pyContains "Starting stage 1" line = false →
      pyContains "Starting stage 2" line = true →
      yueProgressUpdate line = .ok (some 50)) ∧
    (findToken line.data = none → pyContains "Starting stage 1" line = false →
      pyContains "Starting stage 2" line = false →
      (pyContains "postprocessing" (pyLower line) || pyContains "vocoder" (pyLower line)) = true →
      yueProgressUpdate line = .ok (some 90)) ∧
    (findToken line.data = none → pyContains "Starting stage 1" line = false →
      pyContains "Starting stage 2" line = false →
      (pyContains "postprocessing" (pyLower line) || pyContains "vocoder" (pyLower line)) = false →
      yueProgressUpdate line = .ok none) := by
  refine ⟨?_, ?_, ?_, ?_, ?_, ?_, ?_⟩ <;>
    intros <;> simp_all [yueProgressUpdate]

/-- Witness for C4 amended: the stage-2 milestone line. -/
theorem C4_amended_line_parsing_witness :
    findToken ("Starting stage 2" : String).data = none ∧
    pyContains "Starting stage 1" "Starting stage 2" = false ∧
    pyContains "Starting stage 2" "Starting stage 2" = true ∧
    yueProgressUpdate "Starting stage 2" = .ok (some 50) :=
  ⟨by decide, by decide, by decide,
   (C4_amended_line_parsing "Starting stage 2").2.2.2.2.1 (by decide) (by decide) (by decide)⟩

end SunoSupport
